import Mathlib

/-!
Verification development for SIMULADOR-PERDUMERIA (`src/App.py`).

The file shallowly embeds the two data-producing cores of the app:

* the dimensionality-reduction wrapper `process_ingredients_pca`
  (`App.py` lines 55-78), over an explicit `DataFrame` model, with the
  sklearn PCA kernel abstracted as a `fit` parameter and its documented
  shape validation modelled explicitly;
* the formula accumulator embedded in the Streamlit handlers:
  the add handler (`App.py` lines 163-168), the display/serialization loop
  (`App.py` lines 176-192) and the clear handler (`App.py` lines 195-197).

Numbers are modelled as exact rationals (`ℚ`); Python float formatting is
modelled for rationals with a terminating decimal expansion, which covers
every value the app's number input can produce.
-/

/-- A pandas cell: either a string or a numeric value. -/
inductive Cell where
  | str (s : String)
  | num (q : ℚ)
  deriving DecidableEq

/-- A pandas DataFrame: a list of column names together with the rows,
each row being the list of its cells in column order. -/
structure DataFrame where
  columns : List String
  rows : List (List Cell)
  deriving DecidableEq

/-- The frame `pd.DataFrame()`: no columns and no rows
(`App.py` lines 60 and 66). -/
def DataFrame.empty : DataFrame := ⟨[], []⟩

/-- Numeric reading of a cell, as `df[features_cols].values` produces for
the (numeric) feature columns of `App.py` line 68. -/
def Cell.toQ : Cell → ℚ
  | .num q => q
  | .str _ => 0

/-- The required feature columns (`App.py` line 63). -/
def features_cols : List String := ["logP", "odor_value", "cost"]

/-- Index of a column name in a column list (pandas column lookup). -/
def colIdx (cols : List String) (name : String) : Option ℕ :=
  match cols with
  | [] => none
  | c :: cs => if c == name then some 0 else (colIdx cs name).map (· + 1)

/-- Cell of a row at an optional column index. -/
def getCell (row : List Cell) : Option ℕ → ℚ
  | some j => (row.getD j (Cell.num 0)).toQ
  | none => 0

/-- The N×3 feature matrix `df[features_cols].values` (`App.py` line 68). -/
def featuresMatrix (df : DataFrame) : List (List ℚ) :=
  df.rows.map (fun r => features_cols.map (fun c => getCell r (colIdx df.columns c)))

/-- Number of features (columns) of a data matrix, as sklearn reads it from
the array shape. -/
def n_features (X : List (List ℚ)) : ℕ := (X.headD []).length

/-- Column assignment `df[name] = vals` (pandas): replaces the column in
place when `name` is already a column, otherwise appends a new column at the
end (`App.py` lines 74-76). -/
def assign_column (df : DataFrame) (name : String) (vals : List ℚ) : DataFrame :=
  match colIdx df.columns name with
  | some i => ⟨df.columns, List.zipWith (fun r v => r.set i (Cell.num v)) df.rows vals⟩
  | none => ⟨df.columns ++ [name], List.zipWith (fun r v => r ++ [Cell.num v]) df.rows vals⟩

/-- The three coordinate columns added by the reduction stage
(`App.py` lines 74-76). -/
def dim_cols : List String := ["Dim 1 (Olfativo)", "Dim 2 (Tonalidad)", "Dim 3 (Impacto)"]

/-- The three in-place column assignments of `App.py` lines 74-76, with
`coords` the matrix returned by `pca.fit_transform`. -/
def with_pca_columns (df : DataFrame) (coords : List (ℚ × ℚ × ℚ)) : DataFrame :=
  let df1 := assign_column df "Dim 1 (Olfativo)" (coords.map (fun c => c.1))
  let df2 := assign_column df1 "Dim 2 (Tonalidad)" (coords.map (fun c => c.2.1))
  assign_column df2 "Dim 3 (Impacto)" (coords.map (fun c => c.2.2))

/-- Outcome of one call to `process_ingredients_pca`.  `raised` is an
uncaught Python exception; `returned` is a normal return.  In both cases
`argSt` is the state of the caller's DataFrame argument after the call
(explicit state passing for the in-place mutation of `App.py` lines 74-76),
and `uiErr` is the message shown through `st.error`, if any
(`App.py` line 65). -/
inductive PResult where
  | raised (exn : String) (argSt : DataFrame)
  | returned (val : DataFrame) (argSt : DataFrame) (uiErr : Option String)
  deriving DecidableEq

/-- Post-call state of the DataFrame passed to `process_ingredients_pca`. -/
def PResult.argState : PResult → DataFrame
  | .raised _ a => a
  | .returned _ a _ => a

/-- The value returned to the caller, when the call did not raise. -/
def PResult.retVal : PResult → Option DataFrame
  | .raised _ _ => none
  | .returned v _ _ => some v

/-- The `st.error` message emitted during the call, if any. -/
def PResult.uiSignal : PResult → Option String
  | .raised _ _ => none
  | .returned _ _ e => e

/-- The message of `App.py` line 65, shown when a feature column is
absent.  It is one fixed string naming the whole required column set. -/
def missing_cols_msg : String :=
  "El DataFrame de ingredientes no tiene las columnas necesarias (logP, odor_value, cost)."

/-- Message of the `ValueError` raised by sklearn's
`PCA(n_components=3).fit_transform` when `n_components` exceeds
`min(n_samples, n_features)` (documented sklearn validation, performed
before any decomposition). -/
def pca_n_components_msg : String :=
  "n_components=3 must be between 0 and min(n_samples, n_features)"

/-- Message of the `ValueError` raised by pandas when a column is assigned
from an array whose length differs from the number of rows. -/
def length_mismatch_msg : String :=
  "Length of values does not match length of index"

/-- `process_ingredients_pca` (`App.py` lines 55-78).  The numeric kernel of
`PCA(n_components=3).fit_transform` is the parameter `fit` (its
floating-point output is external to this embedding); its documented shape
validation (raise when `3 > min(n_samples, n_features)`) and the pandas
length check on column assignment are modelled explicitly.  Branches follow
the source: empty frame returned for an empty input (line 60), fixed
`st.error` message and empty frame when a feature column is missing
(lines 64-66), otherwise PCA on the feature matrix and three in-place
column assignments on the argument, which is also the returned value
(lines 68-78). -/
def process_ingredients_pca (fit : List (List ℚ) → List (ℚ × ℚ × ℚ)) (df : DataFrame) :
    PResult :=
  if df.rows = [] then
    .returned DataFrame.empty df none
  else if features_cols.all (fun c => df.columns.contains c) then
    let X := featuresMatrix df
    if 3 ≤ min X.length (n_features X) then
      let coords := fit X
      if coords.length = df.rows.length then
        let enriched := with_pca_columns df coords
        .returned enriched enriched none
      else .raised length_mismatch_msg df
    else .raised pca_n_components_msg df
  else .returned DataFrame.empty df (some missing_cols_msg)

/-- Round the nonnegative fraction `num / den` to the nearest natural
number, ties to even: the rounding Python's float formatting applies.
Stated on the numerator and denominator so that it evaluates by kernel
reduction. -/
def roundHalfEven (num den : ℕ) : ℕ :=
  let f := num / den
  let r := num % den
  if 2 * r < den then f
  else if den < 2 * r then f + 1
  else if f % 2 = 0 then f else f + 1

/-- Pad a digit string with leading zeros up to a given length. -/
def padZeros (s : String) (n : ℕ) : String :=
  if n ≤ s.length then s else String.mk (List.replicate (n - s.length) '0') ++ s

/-- Render a rational with exactly `d` digits after the decimal point,
as Python's fixed-point format `f"{x:.df}"` does (sign, then the absolute
value `|num| / den` scaled by `10 ^ d` and rounded half-to-even). -/
def renderFixed (q : ℚ) (d : ℕ) : String :=
  let sgn := if q.num < 0 then "-" else ""
  let scaled := roundHalfEven (q.num.natAbs * 10 ^ d) q.den
  let s := padZeros (Nat.repr scaled) (d + 1)
  sgn ++ s.dropRight d ++ "." ++ s.takeRight d

/-- Python's `f"{x}"` on a float, modelled on exact rationals: the shortest
terminating decimal expansion with at least one fractional digit (so
`2 ↦ "2.0"`, `3/2 ↦ "1.5"`).  A rational has a `k`-digit terminating
expansion exactly when its reduced denominator divides `10 ^ k`.  For a
rational with no terminating expansion within 17 fractional digits
(impossible for the decimal inputs the app's number input produces) the
17-digit fixed rendering is used. -/
def pyFloatRepr (q : ℚ) : String :=
  match (List.range 18).find? (fun k => 10 ^ k % q.den == 0) with
  | some k => renderFixed q (Nat.max k 1)
  | none => renderFixed q 17

/-- Python dict access on the formula, modelled as lookup of the first
matching key in the insertion-ordered association list. -/
def dict_get? (f : List (String × ℚ)) (name : String) : Option ℚ :=
  match f with
  | [] => none
  | (k, v) :: t => if k = name then some v else dict_get? t name

/-- In-place increment of the (unique) entry holding `name`, keeping its
position: `st.session_state.formula[name] += q` on a Python dict. -/
def dict_update_add (f : List (String × ℚ)) (name : String) (q : ℚ) :
    List (String × ℚ) :=
  match f with
  | [] => []
  | (k, v) :: t => if k = name then (k, v + q) :: t else (k, v) :: dict_update_add t name q

/-- The add handler (`App.py` lines 163-167): if the name is already a key
of the formula dict its quantity is incremented in place (keeping its
position), otherwise the pair is appended.  The handler performs no
validation of `q`. -/
def add_ingredient (f : List (String × ℚ)) (name : String) (q : ℚ) :
    List (String × ℚ) :=
  if (dict_get? f name).isSome then dict_update_add f name q
  else f ++ [(name, q)]

/-- The `st.success` message the add handler always emits
(`App.py` line 168). -/
def add_success_message (name : String) (q : ℚ) : String :=
  "Añadido " ++ pyFloatRepr q ++ " de " ++ name

/-- The separator of `App.py` line 176: twenty `=` characters. -/
def sep20 : String := String.mk (List.replicate 20 '=')

/-- One iteration of the display loop of `App.py` lines 181-184: append the
ingredient line to the accumulated string and the quantity to the running
total. -/
def export_step (acc : String × ℚ) (p : String × ℚ) : String × ℚ :=
  (acc.1 ++ (p.1 ++ ": " ++ pyFloatRepr p.2 ++ "\n"), acc.2 + p.2)

/-- The serialized formula `formula_str` of `App.py` lines 176-192: header
and separator, the loop over the entries in insertion order, the separator
again, and the total line. -/
def formula_export (f : List (String × ℚ)) : String :=
  let r := f.foldl export_step ("FÓRMULA DE PERFUME\n" ++ (sep20 ++ "\n"), 0)
  r.1 ++ (sep20 ++ "\n") ++ ("TOTAL: " ++ renderFixed r.2 2 ++ " partes\n")

/-- The running total `total_partes` of `App.py` lines 177-184. -/
def total_partes (f : List (String × ℚ)) : ℚ :=
  f.foldl (fun a p => a + p.2) 0

/-- The summary the app displays (`App.py` lines 180-189): the entries in
insertion order together with the total. -/
def summarize (f : List (String × ℚ)) : List (String × ℚ) × ℚ :=
  (f, total_partes f)

/-- The clear handler (`App.py` line 196): the formula is reset to the
empty dict. -/
def clear_formula (_ : List (String × ℚ)) : List (String × ℚ) := []

/-- Concatenation of the per-ingredient lines of the export, in insertion
order (specification shape used to state the export format claim). -/
def linesConcat (f : List (String × ℚ)) : String :=
  f.foldr (fun p acc => p.1 ++ ": " ++ pyFloatRepr p.2 ++ "\n" ++ acc) ""

/-- A PCA kernel stand-in used to instantiate theorems at concrete inputs:
one (zero) coordinate triple per input row. -/
def fit0 : List (List ℚ) → List (ℚ × ℚ × ℚ) :=
  fun X => X.map (fun _ => (0, 0, 0))

/-- A degenerate kernel stand-in returning no rows. -/
def fitNil : List (List ℚ) → List (ℚ × ℚ × ℚ) := fun _ => []

/-- The column list of the mock catalog after the rename of
`App.py` lines 47-50. -/
def mock_columns : List String :=
  ["nombre", "Familia Olfativa", "logP", "odor_value", "cost"]

/-- The mock ingredient catalog `get_mock_ingredients`
(`App.py` lines 13-51), after the column rename. -/
def get_mock_ingredients : DataFrame :=
  ⟨mock_columns,
   [[.str "Limoneno", .str "Cítrico", .num 4.35, .num 800, .num 10],
    [.str "Linalool", .str "Floral", .num 2.84, .num 600, .num 25],
    [.str "Vainillina", .str "Gourmand", .num 1.21, .num 1500, .num 150],
    [.str "Etil Maltol", .str "Gourmand", .num 1.35, .num 1200, .num 180],
    [.str "Sándalo (Sandalore)", .str "Amaderado", .num 4.10, .num 300, .num 450],
    [.str "Iso E Super", .str "Amaderado", .num 5.50, .num 200, .num 60],
    [.str "Ambroxan", .str "Ámbar", .num 4.80, .num 400, .num 800],
    [.str "Rosa Óxido", .str "Floral", .num 2.70, .num 900, .num 300],
    [.str "Cis-3-Hexenol", .str "Verde", .num 1.40, .num 1100, .num 90],
    [.str "Eugenol", .str "Especiado", .num 2.27, .num 700, .num 40],
    [.str "Indol", .str "Animal", .num 2.30, .num 50, .num 1200],
    [.str "Menta Piperita", .str "Herbal", .num 2.80, .num 850, .num 30],
    [.str "Geraniol", .str "Floral", .num 3.40, .num 750, .num 50],
    [.str "Citronelol", .str "Floral", .num 3.25, .num 650, .num 55],
    [.str "Patchouli", .str "Amaderado", .num 4.50, .num 250, .num 120]]⟩

/-- A one-record catalog with all feature columns. -/
def catalog1 : DataFrame :=
  ⟨mock_columns, [[.str "Limoneno", .str "Cítrico", .num 4.35, .num 800, .num 10]]⟩

/-- A two-record catalog with all feature columns. -/
def catalog2 : DataFrame :=
  ⟨mock_columns,
   [[.str "Limoneno", .str "Cítrico", .num 4.35, .num 800, .num 10],
    [.str "Linalool", .str "Floral", .num 2.84, .num 600, .num 25]]⟩

/-- A three-record catalog with all feature columns. -/
def catalog3 : DataFrame :=
  ⟨mock_columns,
   [[.str "Limoneno", .str "Cítrico", .num 4.35, .num 800, .num 10],
    [.str "Linalool", .str "Floral", .num 2.84, .num 600, .num 25],
    [.str "Vainillina", .str "Gourmand", .num 1.21, .num 1500, .num 150]]⟩

/-- A catalog whose record "Vainillina" lacks the `cost` column. -/
def catalogNoCost_A : DataFrame :=
  ⟨["nombre", "Familia Olfativa", "logP", "odor_value"],
   [[.str "Vainillina", .str "Gourmand", .num 1.21, .num 1500]]⟩

/-- A catalog whose record "Rosa Óxido" lacks the `cost` column. -/
def catalogNoCost_B : DataFrame :=
  ⟨["nombre", "Familia Olfativa", "logP", "odor_value"],
   [[.str "Rosa Óxido", .str "Floral", .num 2.70, .num 900]]⟩

/-- A catalog with all columns but no rows (also `.empty` for pandas). -/
def df_no_rows : DataFrame := ⟨mock_columns, []⟩

/-- Unfolding of `linesConcat` on a cons. -/
lemma linesConcat_cons (p : String × ℚ) (ps : List (String × ℚ)) :
    linesConcat (p :: ps) = p.1 ++ ": " ++ pyFloatRepr p.2 ++ "\n" ++ linesConcat ps := rfl

/-- The display loop of `App.py` lines 181-184 accumulates exactly the
concatenated ingredient lines and the sum of the stored quantities. -/
lemma foldl_export_struct :
    ∀ (f : List (String × ℚ)) (s : String) (t : ℚ),
      f.foldl export_step (s, t) = (s ++ linesConcat f, t + (f.map Prod.snd).sum) := by
  intro f
  induction f with
  | nil =>
    intro s t
    simp [linesConcat, String.append_empty]
  | cons p ps ih =>
    intro s t
    rw [List.foldl_cons]
    show List.foldl export_step (s ++ (p.1 ++ ": " ++ pyFloatRepr p.2 ++ "\n"), t + p.2) ps = _
    rw [ih, linesConcat_cons, Prod.mk.injEq]
    constructor
    · rw [String.append_assoc]
    · rw [List.map_cons, List.sum_cons, add_assoc]

/-- The running-total fold of `App.py` lines 177-184 is the sum of the
stored quantities. -/
lemma foldl_add_pairs :
    ∀ (g : List (String × ℚ)) (t : ℚ),
      g.foldl (fun a p => a + p.2) t = t + (g.map Prod.snd).sum := by
  intro g
  induction g with
  | nil => intro t; simp
  | cons p ps ih =>
    intro t
    rw [List.foldl_cons, ih, List.map_cons, List.sum_cons, add_assoc]

lemma total_partes_eq_sum (g : List (String × ℚ)) :
    total_partes g = (g.map Prod.snd).sum := by
  rw [total_partes, foldl_add_pairs, zero_add]

lemma dict_get?_update_add (n : String) (q : ℚ) :
    ∀ f : List (String × ℚ),
      dict_get? (dict_update_add f n q) n = (dict_get? f n).map (fun v => v + q) := by
  intro f
  induction f with
  | nil => rfl
  | cons a t ih =>
    obtain ⟨k, v⟩ := a
    by_cases h : k = n
    · simp [dict_update_add, dict_get?, h]
    · simp [dict_update_add, dict_get?, h, ih]

lemma dict_get?_append_of_none (n : String) (q : ℚ) :
    ∀ f : List (String × ℚ), dict_get? f n = none →
      dict_get? (f ++ [(n, q)]) n = some q := by
  intro f
  induction f with
  | nil => intro _; simp [dict_get?]
  | cons a t ih =>
    obtain ⟨k, v⟩ := a
    intro h
    by_cases hk : k = n
    · rw [dict_get?, if_pos hk] at h
      exact absurd h (by simp)
    · rw [dict_get?, if_neg hk] at h
      rw [List.cons_append, dict_get?, if_neg hk]
      exact ih h

/-- The add handler maps the name to its previous quantity (0 when absent)
plus the added quantity, for every quantity. -/
lemma add_lookup (f : List (String × ℚ)) (n : String) (q : ℚ) :
    dict_get? (add_ingredient f n q) n = some ((dict_get? f n).getD 0 + q) := by
  rw [add_ingredient]
  cases h : dict_get? f n with
  | none => simp [h, dict_get?_append_of_none n q f h]
  | some v => simp [h, dict_get?_update_add n q f]

/-- Claim C1: for every non-empty formula the exported text is exactly the
header line, the separator of twenty equals signs, one line per ingredient
of the form name, colon, quantity in insertion order, the separator again,
and the trailing total line with the sum of all quantities rendered to two
decimal places; in particular the formula built by adding 2.0 of Limoneno
and then 1.5 of Linalool exports exactly the block given in the
specification. -/
theorem formula_export_structure (f : List (String × ℚ)) (h : f ≠ []) :
    formula_export f
        = "FÓRMULA DE PERFUME\n" ++ sep20 ++ "\n" ++ linesConcat f ++ sep20 ++ "\n"
          ++ "TOTAL: " ++ renderFixed ((f.map Prod.snd).sum) 2 ++ " partes\n"
      ∧ formula_export (add_ingredient (add_ingredient [] "Limoneno" 2) "Linalool" 1.5)
        = "FÓRMULA DE PERFUME\n====================\nLimoneno: 2.0\nLinalool: 1.5\n====================\nTOTAL: 3.50 partes\n" := by
  constructor
  · simp only [formula_export]
    rw [foldl_export_struct, zero_add]
    simp only [String.append_assoc]
  · have e15 : (1.5 : ℚ) = mkRat 3 2 := by norm_num [Rat.mkRat_eq_divInt]
    rw [e15]
    have etot : ((0 : ℚ) + 2) + mkRat 3 2 = mkRat 7 2 := by
      norm_num [Rat.mkRat_eq_divInt]
    show ("FÓRMULA DE PERFUME\n" ++ (sep20 ++ "\n")
          ++ ("Limoneno" ++ ": " ++ pyFloatRepr 2 ++ "\n")
          ++ ("Linalool" ++ ": " ++ pyFloatRepr (mkRat 3 2) ++ "\n"))
        ++ (sep20 ++ "\n")
        ++ ("TOTAL: " ++ renderFixed ((0 + 2) + mkRat 3 2) 2 ++ " partes\n") = _
    rw [etot]
    rfl

/-- Witness for C1, applying the theorem to the one-entry formula holding
2.0 parts of Limoneno. -/
theorem formula_export_structure_check :
    formula_export [("Limoneno", (2 : ℚ))]
        = "FÓRMULA DE PERFUME\n" ++ sep20 ++ "\n" ++ linesConcat [("Limoneno", (2 : ℚ))]
          ++ sep20 ++ "\n"
          ++ "TOTAL: " ++ renderFixed (([("Limoneno", (2 : ℚ))].map Prod.snd).sum) 2 ++ " partes\n"
      ∧ formula_export (add_ingredient (add_ingredient [] "Limoneno" 2) "Linalool" 1.5)
        = "FÓRMULA DE PERFUME\n====================\nLimoneno: 2.0\nLinalool: 1.5\n====================\nTOTAL: 3.50 partes\n" :=
  formula_export_structure [("Limoneno", (2 : ℚ))] (by decide)

/-- Claim C2, counterexample: adding quantity -1 of Limoneno to the empty
formula stores the entry, so the formula does not stay unchanged and no
`InvalidQuantityError` exists anywhere in the handler. -/
theorem add_negative_changes_formula :
    add_ingredient [] "Limoneno" (-1) = [("Limoneno", -1)] ∧
    add_ingredient [] "Limoneno" (-1) ≠ [] := by
  constructor
  · rfl
  · decide

/-- Claim C2 (amended): the add handler applies the quantity
unconditionally: for a non-positive quantity the name is still mapped to
its previous quantity plus the added one (and inserted at the end when
absent), and no error is signalled — the handler has no validation, only
the UI input minimum of 0.1 prevents non-positive quantities. -/
theorem add_applies_unconditionally (f : List (String × ℚ)) (n : String) (q : ℚ)
    (hq : q ≤ 0) :
    dict_get? (add_ingredient f n q) n = some ((dict_get? f n).getD 0 + q) ∧
    (dict_get? f n = none → add_ingredient f n q = f ++ [(n, q)]) := by
  refine ⟨add_lookup f n q, fun h => ?_⟩
  simp [add_ingredient, h]

/-- Witness for the amended C2: adding -1 of Linalool to the empty formula
stores the entry with quantity -1. -/
theorem add_applies_unconditionally_check :
    dict_get? (add_ingredient [] "Linalool" (-1)) "Linalool" = some (-1) := by
  have h := (add_applies_unconditionally [] "Linalool" (-1) (by norm_num)).1
  rw [h]
  norm_num [dict_get?]

/-- Claim C6: two successive adds of the same name accumulate — the stored
quantity becomes the previous one (0 when absent, hence q1 + q2 from an
absent name) plus q1 plus q2 — and for every formula the total computed by
the display loop equals the arithmetic sum of the stored quantities to
within 1e-9 (exactly, in this rational model). -/
theorem add_accumulates_and_total (f : List (String × ℚ)) (n : String) (q1 q2 : ℚ)
    (h1 : 0 < q1) (h2 : 0 < q2) :
    dict_get? (add_ingredient (add_ingredient f n q1) n q2) n
        = some ((dict_get? f n).getD 0 + (q1 + q2)) ∧
    ∀ g : List (String × ℚ), |total_partes g - (g.map Prod.snd).sum| ≤ 1 / 10 ^ 9 := by
  constructor
  · rw [add_lookup, add_lookup]
    simp [add_assoc]
  · intro g
    rw [total_partes_eq_sum, sub_self, abs_zero]
    positivity

/-- Witness for C6: adding 2 then 3 parts of Limoneno to a formula already
holding 1 part leaves Limoneno at 6 parts. -/
theorem add_accumulates_and_total_check :
    dict_get? (add_ingredient (add_ingredient [("Limoneno", 1)] "Limoneno" 2) "Limoneno" 3)
        "Limoneno" = some 6 := by
  have h := (add_accumulates_and_total [("Limoneno", 1)] "Limoneno" 2 3
    (by norm_num) (by norm_num)).1
  rw [h]
  norm_num [dict_get?]

/-- Claim C10: the clear handler resets the formula to empty, a second
clear leaves it empty as well, and the summary after clearing is the empty
sequence with total 0, displayed as "0.00". -/
theorem clear_is_idempotent_and_empty (f : List (String × ℚ)) :
    clear_formula f = [] ∧ clear_formula (clear_formula f) = [] ∧
    summarize (clear_formula f) = ([], 0) ∧
    renderFixed (summarize (clear_formula f)).2 2 = "0.00" :=
  ⟨rfl, rfl, rfl, (by rfl : renderFixed 0 2 = "0.00")⟩

/-- Branch of `App.py` lines 59-60: an empty catalog returns the empty
frame, leaves the argument untouched and signals nothing. -/
lemma process_of_empty (fit : List (List ℚ) → List (ℚ × ℚ × ℚ)) (df : DataFrame)
    (h : df.rows = []) :
    process_ingredients_pca fit df = .returned DataFrame.empty df none := by
  simp only [process_ingredients_pca]
  rw [if_pos h]


lemma process_of_missing (fit : List (List ℚ) → List (ℚ × ℚ × ℚ)) (df : DataFrame)
    (h1 : df.rows ≠ [])
    (h2 : features_cols.all (fun c => df.columns.contains c) = false) :
    process_ingredients_pca fit df = .returned DataFrame.empty df (some missing_cols_msg) := by
  have h2' : ¬ (features_cols.all (fun c => df.columns.contains c) = true) := by
    rw [h2]
    simp
  simp only [process_ingredients_pca]
  rw [if_neg h1, if_neg h2']

lemma featuresMatrix_length (df : DataFrame) :
    (featuresMatrix df).length = df.rows.length := by
  simp [featuresMatrix]

lemma n_features_featuresMatrix (df : DataFrame) (h : df.rows ≠ []) :
    n_features (featuresMatrix df) = 3 := by
  obtain ⟨r, t, hr⟩ := List.exists_cons_of_ne_nil h
  simp [n_features, featuresMatrix, hr, features_cols]

lemma process_of_small (fit : List (List ℚ) → List (ℚ × ℚ × ℚ)) (df : DataFrame)
    (h2 : features_cols.all (fun c => df.columns.contains c) = true)
    (h1 : df.rows ≠ []) (h3 : df.rows.length < 3) :
    process_ingredients_pca fit df = .raised pca_n_components_msg df := by
  have hm : ¬ 3 ≤ min (featuresMatrix df).length (n_features (featuresMatrix df)) := by
    rw [featuresMatrix_length, n_features_featuresMatrix df h1]
    omega
  simp only [process_ingredients_pca]
  rw [if_neg h1, if_pos h2, if_neg hm]

lemma process_of_success (fit : List (List ℚ) → List (ℚ × ℚ × ℚ)) (df : DataFrame)
    (h2 : features_cols.all (fun c => df.columns.contains c) = true)
    (h3 : 3 ≤ df.rows.length)
    (h4 : (fit (featuresMatrix df)).length = df.rows.length) :
    process_ingredients_pca fit df
      = .returned (with_pca_columns df (fit (featuresMatrix df)))
          (with_pca_columns df (fit (featuresMatrix df))) none := by
  have h1 : df.rows ≠ [] := by
    intro hh
    rw [hh] at h3
    simp at h3
  have hm : 3 ≤ min (featuresMatrix df).length (n_features (featuresMatrix df)) := by
    rw [featuresMatrix_length, n_features_featuresMatrix df h1]
    omega
  simp only [process_ingredients_pca]
  rw [if_neg h1, if_pos h2, if_pos hm, if_pos h4]

lemma colIdx_eq_none (name : String) :
    ∀ cols : List String, name ∉ cols → colIdx cols name = none := by
  intro cols
  induction cols with
  | nil => intro _; rfl
  | cons c cs ih =>
    intro h
    rw [List.mem_cons, not_or] at h
    have hc : (c == name) = false := by
      rw [beq_eq_false_iff_ne]
      exact fun e => h.1 e.symm
    simp [colIdx, hc, ih h.2]

lemma assign_column_fresh (df : DataFrame) (name : String) (vals : List ℚ)
    (h : name ∉ df.columns) :
    assign_column df name vals
      = ⟨df.columns ++ [name], List.zipWith (fun r v => r ++ [Cell.num v]) df.rows vals⟩ := by
  simp [assign_column, colIdx_eq_none name df.columns h]

lemma zip_three_collapse :
    ∀ (rows : List (List Cell)) (coords : List (ℚ × ℚ × ℚ)),
      List.zipWith (fun r v => r ++ [Cell.num v])
        (List.zipWith (fun r v => r ++ [Cell.num v])
          (List.zipWith (fun r v => r ++ [Cell.num v]) rows (coords.map (fun c => c.1)))
          (coords.map (fun c => c.2.1)))
        (coords.map (fun c => c.2.2))
      = List.zipWith (fun r c => r ++ [Cell.num c.1, Cell.num c.2.1, Cell.num c.2.2])
          rows coords := by
  intro rows
  induction rows with
  | nil => intro coords; simp
  | cons r rs ih =>
    intro coords
    cases coords with
    | nil => simp
    | cons c cs =>
      simp [ih cs, List.append_assoc]

lemma with_pca_columns_spec (df : DataFrame) (coords : List (ℚ × ℚ × ℚ))
    (hfresh : ∀ d ∈ dim_cols, d ∉ df.columns) :
    (with_pca_columns df coords).columns = df.columns ++ dim_cols ∧
    (with_pca_columns df coords).rows
      = List.zipWith (fun r c => r ++ [Cell.num c.1, Cell.num c.2.1, Cell.num c.2.2])
          df.rows coords := by
  have h1 : "Dim 1 (Olfativo)" ∉ df.columns := hfresh _ (by simp [dim_cols])
  have h2 : "Dim 2 (Tonalidad)" ∉ df.columns := hfresh _ (by simp [dim_cols])
  have h3 : "Dim 3 (Impacto)" ∉ df.columns := hfresh _ (by simp [dim_cols])
  have h2' : "Dim 2 (Tonalidad)" ∉ df.columns ++ ["Dim 1 (Olfativo)"] := by
    rw [List.mem_append]
    rintro (hc | hc)
    · exact h2 hc
    · exact absurd hc (by decide)
  have h3' : "Dim 3 (Impacto)" ∉ (df.columns ++ ["Dim 1 (Olfativo)"]) ++ ["Dim 2 (Tonalidad)"] := by
    rw [List.mem_append, List.mem_append]
    rintro ((hc | hc) | hc)
    · exact h3 hc
    · exact absurd hc (by decide)
    · exact absurd hc (by decide)
  simp only [with_pca_columns]
  rw [assign_column_fresh df "Dim 1 (Olfativo)" (coords.map (fun c => c.1)) h1]
  rw [assign_column_fresh ⟨df.columns ++ ["Dim 1 (Olfativo)"],
        List.zipWith (fun r v => r ++ [Cell.num v]) df.rows (coords.map (fun c => c.1))⟩
      "Dim 2 (Tonalidad)" (coords.map (fun c => c.2.1)) h2']
  rw [assign_column_fresh ⟨(df.columns ++ ["Dim 1 (Olfativo)"]) ++ ["Dim 2 (Tonalidad)"],
        List.zipWith (fun r v => r ++ [Cell.num v])
          (List.zipWith (fun r v => r ++ [Cell.num v]) df.rows (coords.map (fun c => c.1)))
          (coords.map (fun c => c.2.1))⟩
      "Dim 3 (Impacto)" (coords.map (fun c => c.2.2)) h3']
  constructor
  · simp [dim_cols, List.append_assoc]
  · exact zip_three_collapse df.rows coords

lemma assign_column_rows_length (df : DataFrame) (name : String) (vals : List ℚ) :
    (assign_column df name vals).rows.length = min df.rows.length vals.length := by
  cases h : colIdx df.columns name <;> simp [assign_column, h]

lemma with_pca_columns_rows_length (df : DataFrame) (coords : List (ℚ × ℚ × ℚ))
    (h : coords.length = df.rows.length) :
    (with_pca_columns df coords).rows.length = df.rows.length := by
  simp [with_pca_columns, assign_column_rows_length, h]

/-- Claim C3, counterexample: on a one-record catalog carrying all feature
columns the operation raises sklearn's ValueError (n_components=3 exceeds
min(n_samples, n_features)=1) instead of returning zero-padded
coordinates; the uncaught exception leaves the argument untouched. -/
theorem pca_single_row_raises :
    process_ingredients_pca fit0 catalog1 = .raised pca_n_components_msg catalog1 := rfl

/-- Claim C3 (amended): for a non-empty catalog with all feature columns,
N = 1 or N = 2 records makes the operation raise the PCA ValueError, while
N ≥ 3 (in particular N = 3 < 4) returns one coordinate triple per
record. -/
theorem pca_small_catalog_behavior (fit : List (List ℚ) → List (ℚ × ℚ × ℚ)) (df : DataFrame)
    (hcols : features_cols.all (fun c => df.columns.contains c) = true)
    (hne : df.rows ≠ [])
    (hlen : (fit (featuresMatrix df)).length = df.rows.length) :
    (df.rows.length < 3 → process_ingredients_pca fit df = .raised pca_n_components_msg df) ∧
    (3 ≤ df.rows.length →
      process_ingredients_pca fit df
          = .returned (with_pca_columns df (fit (featuresMatrix df)))
              (with_pca_columns df (fit (featuresMatrix df))) none ∧
      (with_pca_columns df (fit (featuresMatrix df))).rows.length = df.rows.length) := by
  constructor
  · intro h3
    exact process_of_small fit df hcols hne h3
  · intro h3
    exact ⟨process_of_success fit df hcols h3 hlen, with_pca_columns_rows_length df _ hlen⟩

/-- Witness for the amended C3 at the two-record catalog. -/
theorem pca_small_catalog_behavior_check :
    (catalog2.rows.length < 3 →
      process_ingredients_pca fit0 catalog2 = .raised pca_n_components_msg catalog2) ∧
    (3 ≤ catalog2.rows.length →
      process_ingredients_pca fit0 catalog2
          = .returned (with_pca_columns catalog2 (fit0 (featuresMatrix catalog2)))
              (with_pca_columns catalog2 (fit0 (featuresMatrix catalog2))) none ∧
      (with_pca_columns catalog2 (fit0 (featuresMatrix catalog2))).rows.length
          = catalog2.rows.length) :=
  pca_small_catalog_behavior fit0 catalog2 (by decide) (by decide) (by decide)

/-- Claim C8, counterexample: a two-record catalog carries all three
numeric attributes, yet the operation raises instead of returning one
coordinate triple per record. -/
theorem two_row_catalog_raises :
    process_ingredients_pca fit0 catalog2 = .raised pca_n_components_msg catalog2 := rfl

/-- Claim C8 (amended): for every catalog with at least three records and
the three feature columns (and coordinate columns not already present),
the operation returns one row per input record in catalog order, each
output row extending the original row's cells — name, family, logP,
odor_value, cost unchanged — with three numeric coordinate cells. -/
theorem process_preserves_rows_adds_dims (fit : List (List ℚ) → List (ℚ × ℚ × ℚ))
    (df : DataFrame)
    (hcols : features_cols.all (fun c => df.columns.contains c) = true)
    (hfresh : ∀ d ∈ dim_cols, d ∉ df.columns)
    (h3 : 3 ≤ df.rows.length)
    (hlen : (fit (featuresMatrix df)).length = df.rows.length) :
    ∃ out : DataFrame,
      process_ingredients_pca fit df = .returned out out none ∧
      out.rows.length = df.rows.length ∧
      out.columns = df.columns ++ dim_cols ∧
      out.rows = List.zipWith (fun r c => r ++ [Cell.num c.1, Cell.num c.2.1, Cell.num c.2.2])
          df.rows (fit (featuresMatrix df)) := by
  obtain ⟨hc, hr⟩ := with_pca_columns_spec df (fit (featuresMatrix df)) hfresh
  exact ⟨with_pca_columns df (fit (featuresMatrix df)),
    process_of_success fit df hcols h3 hlen,
    with_pca_columns_rows_length df _ hlen, hc, hr⟩

/-- Witness for the amended C8 at the fixed 15-ingredient mock catalog. -/
theorem process_preserves_rows_adds_dims_check :
    ∃ out : DataFrame,
      process_ingredients_pca fit0 get_mock_ingredients = .returned out out none ∧
      out.rows.length = get_mock_ingredients.rows.length ∧
      out.columns = get_mock_ingredients.columns ++ dim_cols ∧
      out.rows = List.zipWith (fun r c => r ++ [Cell.num c.1, Cell.num c.2.1, Cell.num c.2.2])
          get_mock_ingredients.rows (fit0 (featuresMatrix get_mock_ingredients)) :=
  process_preserves_rows_adds_dims fit0 get_mock_ingredients
    (by decide) (by decide) (by decide) (by decide)

/-- Claim C5, counterexample: on a three-record catalog the call changes
the caller's DataFrame (the three coordinate columns are assigned to it in
place), so the input catalog is not left unchanged. -/
theorem process_mutates_argument :
    PResult.argState (process_ingredients_pca fit0 catalog3) ≠ catalog3 := by decide

/-- Claim C5 (amended): the call either leaves the argument untouched (on
the empty, missing-column and raising paths) or — on the success path —
mutates it in place by appending the three coordinate columns, preserving
every pre-existing column and cell, and returns that same mutated frame. -/
theorem process_argument_effect (fit : List (List ℚ) → List (ℚ × ℚ × ℚ)) (df : DataFrame)
    (hfresh : ∀ d ∈ dim_cols, d ∉ df.columns)
    (hlen : (fit (featuresMatrix df)).length = df.rows.length) :
    PResult.argState (process_ingredients_pca fit df) = df
    ∨ (process_ingredients_pca fit df
          = .returned (with_pca_columns df (fit (featuresMatrix df)))
              (with_pca_columns df (fit (featuresMatrix df))) none
        ∧ (with_pca_columns df (fit (featuresMatrix df))).columns = df.columns ++ dim_cols
        ∧ (with_pca_columns df (fit (featuresMatrix df))).rows
            = List.zipWith (fun r c => r ++ [Cell.num c.1, Cell.num c.2.1, Cell.num c.2.2])
                df.rows (fit (featuresMatrix df))) := by
  by_cases h1 : df.rows = []
  · left
    rw [process_of_empty fit df h1]
    rfl
  · by_cases h2 : features_cols.all (fun c => df.columns.contains c) = true
    · by_cases h3 : 3 ≤ df.rows.length
      · right
        obtain ⟨hc, hr⟩ := with_pca_columns_spec df (fit (featuresMatrix df)) hfresh
        exact ⟨process_of_success fit df h2 h3 hlen, hc, hr⟩
      · left
        rw [process_of_small fit df h2 h1 (by omega)]
        rfl
    · left
      have h2' : features_cols.all (fun c => df.columns.contains c) = false := by
        simpa using h2
      rw [process_of_missing fit df h1 h2']
      rfl

/-- Witness for the amended C5 at the three-record catalog. -/
theorem process_argument_effect_check :
    PResult.argState (process_ingredients_pca fit0 catalog3) = catalog3
    ∨ (process_ingredients_pca fit0 catalog3
          = .returned (with_pca_columns catalog3 (fit0 (featuresMatrix catalog3)))
              (with_pca_columns catalog3 (fit0 (featuresMatrix catalog3))) none
        ∧ (with_pca_columns catalog3 (fit0 (featuresMatrix catalog3))).columns
            = catalog3.columns ++ dim_cols
        ∧ (with_pca_columns catalog3 (fit0 (featuresMatrix catalog3))).rows
            = List.zipWith (fun r c => r ++ [Cell.num c.1, Cell.num c.2.1, Cell.num c.2.2])
                catalog3.rows (fit0 (featuresMatrix catalog3))) :=
  process_argument_effect fit0 catalog3 (by decide) (by decide)

/-- Claim C4, counterexample: two catalogs whose (different) single records
lack the cost column get exactly the same fixed error message naming the
whole required column set, so the signalled error names neither the
offending record nor the specific missing attribute, and the call returns
an empty frame instead of failing with a `MissingFeatureError`. -/
theorem missing_column_error_is_generic :
    process_ingredients_pca fit0 catalogNoCost_A
        = .returned DataFrame.empty catalogNoCost_A (some missing_cols_msg) ∧
    process_ingredients_pca fit0 catalogNoCost_B
        = .returned DataFrame.empty catalogNoCost_B (some missing_cols_msg) ∧
    PResult.uiSignal (process_ingredients_pca fit0 catalogNoCost_A)
        = PResult.uiSignal (process_ingredients_pca fit0 catalogNoCost_B) :=
  ⟨rfl, rfl, rfl⟩

/-- Claim C4 (amended): when a required feature column is absent from a
non-empty catalog the operation emits the one fixed generic message naming
the whole required column set and returns an empty frame, before any
numeric work — the outcome is independent of the PCA kernel. -/
theorem missing_column_generic_error (fit fit' : List (List ℚ) → List (ℚ × ℚ × ℚ))
    (df : DataFrame) (hne : df.rows ≠ [])
    (hmiss : features_cols.all (fun c => df.columns.contains c) = false) :
    process_ingredients_pca fit df = .returned DataFrame.empty df (some missing_cols_msg) ∧
    process_ingredients_pca fit df = process_ingredients_pca fit' df := by
  refine ⟨process_of_missing fit df hne hmiss, ?_⟩
  rw [process_of_missing fit df hne hmiss, process_of_missing fit' df hne hmiss]

/-- Witness for the amended C4 at a catalog missing the cost column. -/
theorem missing_column_generic_error_check :
    process_ingredients_pca fit0 catalogNoCost_A
        = .returned DataFrame.empty catalogNoCost_A (some missing_cols_msg) ∧
    process_ingredients_pca fit0 catalogNoCost_A
        = process_ingredients_pca fitNil catalogNoCost_A :=
  missing_column_generic_error fit0 fitNil catalogNoCost_A (by decide) (by decide)

/-- Claim C7, counterexample: on the empty catalog the call returns an
empty frame with no signal at all (no distinguished no-data condition),
and the value returned to the caller is identical to the one returned on
the missing-column failure path, so the two outcomes cannot be told
apart from the return value. -/
theorem empty_catalog_no_signal :
    process_ingredients_pca fit0 DataFrame.empty
        = .returned DataFrame.empty DataFrame.empty none ∧
    PResult.uiSignal (process_ingredients_pca fit0 DataFrame.empty) = none ∧
    PResult.retVal (process_ingredients_pca fit0 DataFrame.empty)
        = PResult.retVal (process_ingredients_pca fit0 catalogNoCost_A) :=
  ⟨rfl, rfl, rfl⟩

/-- Claim C7 (amended): for every catalog with no rows the operation
returns the empty frame, leaves the argument unchanged and emits no signal
of any kind. -/
theorem empty_catalog_returns_empty (fit : List (List ℚ) → List (ℚ × ℚ × ℚ))
    (df : DataFrame) (h : df.rows = []) :
    process_ingredients_pca fit df = .returned DataFrame.empty df none ∧
    PResult.uiSignal (process_ingredients_pca fit df) = none := by
  refine ⟨process_of_empty fit df h, ?_⟩
  rw [process_of_empty fit df h]
  rfl

/-- Witness for the amended C7 at the catalog with columns but no rows. -/
theorem empty_catalog_returns_empty_check :
    process_ingredients_pca fit0 df_no_rows = .returned DataFrame.empty df_no_rows none ∧
    PResult.uiSignal (process_ingredients_pca fit0 df_no_rows) = none :=
  empty_catalog_returns_empty fit0 df_no_rows rfl
